import Mathlib

/-!
Verification of the schema-ontology data model (`src/src/index.ts`).

The repository exports four JSON-Schema literals (`EntitySchema`,
`ComponentSchema`, `RelationshipSchema`, `SerializedEntitySchema`) together
with mirrored TypeScript type aliases (`EntityType`, `ComponentType`,
`RelationshipType`, `SerializedEntityType`).  There is no runtime code in the
repository: the schema literals are declarative data, whose meaning is the
standard JSON-Schema semantics (an object validates when it has every field of
the `required` list and every declared property that is present matches its
declared `type`/`format`).  The validators below transcribe that semantics for
each literal.  The projection / reprojection transform between full
relationships and the embedded `{predicate, object}` pairs of a serialized
entity, the URI-syntax checker, and the error taxonomy are not present in the
source; they are modelled from the specification and marked as such in their
doc comments.
-/

namespace SchemaOntology

/-- JSON-like values, the candidate inputs of the schema validators.  Numbers
are modelled as integers: no claim distinguishes numeric values beyond "not a
string / not an object". -/
inductive Json where
  | null : Json
  | bool : Bool → Json
  | num : Int → Json
  | str : String → Json
  | arr : List Json → Json
  | obj : List (String × Json) → Json
deriving Inhabited

/-- Characters allowed in a URI scheme after its leading letter. -/
def isSchemeChar (c : Char) : Bool :=
  c.isAlphanum || c == '+' || c == '-' || c == '.'

/-- Scans scheme characters until the terminating colon of a URI scheme. -/
def hasSchemeColon : List Char → Bool
  | [] => false
  | c :: rest => if c = ':' then true else isSchemeChar c && hasSchemeColon rest

/-- Modelled from the spec: the URI-syntax checker is an external collaborator
("a URI-syntax checker (format validator) — the model depends on it but does
not define its grammar beyond absolute URI", §6); the data-model section asks
for a "scheme-based absolute identifier, e.g. `did:...`, `https://...`,
`urn:...`".  A string passes iff it starts with a Latin letter followed by
scheme characters and a terminating colon. -/
def isURI (s : String) : Bool :=
  match s.toList with
  | [] => false
  | c :: rest => c.isAlpha && hasSchemeColon rest

/-- Modelled from the spec: the error taxonomy of §7 (`ShapeError` for an
absent required field or an unexpected top-level shape, `FormatError` for a
string failing a format constraint, `TypeError` for a wrong primitive kind). -/
inductive SchemaError where
  | ShapeError : SchemaError
  | FormatError : SchemaError
  | TypeError : SchemaError
deriving DecidableEq, Repr

/-- A required property declared `type: 'string', format: 'uri'`: absent ↦
`ShapeError`, non-string ↦ `TypeError`, string failing the URI checker ↦
`FormatError`. -/
def checkUriStr (u : String → Bool) (fields : List (String × Json)) (k : String) :
    Except SchemaError Unit :=
  match List.lookup k fields with
  | none => .error .ShapeError
  | some (Json.str s) => if u s then .ok () else .error .FormatError
  | some _ => .error .TypeError

/-- A required property declared `type: 'string'` with no format. -/
def checkStr (fields : List (String × Json)) (k : String) : Except SchemaError Unit :=
  match List.lookup k fields with
  | none => .error .ShapeError
  | some (Json.str _) => .ok ()
  | some _ => .error .TypeError

/-- An optional property declared `type: 'string'` with no format. -/
def checkOptStr (fields : List (String × Json)) (k : String) : Except SchemaError Unit :=
  match List.lookup k fields with
  | none => .ok ()
  | some (Json.str _) => .ok ()
  | some _ => .error .TypeError

/-- An optional property declared `type: 'string', format: 'uri'`. -/
def checkOptUriStr (u : String → Bool) (fields : List (String × Json)) (k : String) :
    Except SchemaError Unit :=
  match List.lookup k fields with
  | none => .ok ()
  | some (Json.str s) => if u s then .ok () else .error .FormatError
  | some _ => .error .TypeError

/-- An optional property declared `type: 'object', additionalProperties: true`
(any object passes; nothing inside it is inspected). -/
def checkOptObj (fields : List (String × Json)) (k : String) : Except SchemaError Unit :=
  match List.lookup k fields with
  | none => .ok ()
  | some (Json.obj _) => .ok ()
  | some _ => .error .TypeError

/-- Validates every element of an array against an item validator, reporting
the first violation found. -/
def validateAll (f : Json → Except SchemaError Unit) : List Json → Except SchemaError Unit
  | [] => .ok ()
  | x :: xs => do
    let _ ← f x
    validateAll f xs

/-- A required property declared `type: 'array'` with the given `items`
validator. -/
def checkArr (fields : List (String × Json)) (k : String)
    (f : Json → Except SchemaError Unit) : Except SchemaError Unit :=
  match List.lookup k fields with
  | none => .error .ShapeError
  | some (Json.arr xs) => validateAll f xs
  | some _ => .error .TypeError

/-- Validator of `EntitySchema` (src/src/index.ts lines 1–13): `type: 'object'`,
one property `id : string, format uri`, `required: ['id']`.  Error kinds follow
the spec taxonomy. -/
def validateEntity (u : String → Bool) (v : Json) : Except SchemaError Unit :=
  match v with
  | .obj fields => checkUriStr u fields "id"
  | _ => .error .ShapeError

/-- Validator of `ComponentSchema` (src/src/index.ts lines 19–43): properties
`type : string, format uri`, `description : string`, `label : string`,
`properties : object, additionalProperties: true`; `required: ['type']`. -/
def validateComponent (u : String → Bool) (v : Json) : Except SchemaError Unit :=
  match v with
  | .obj fields => do
    let _ ← checkUriStr u fields "type"
    let _ ← checkOptStr fields "description"
    let _ ← checkOptStr fields "label"
    checkOptObj fields "properties"
  | _ => .error .ShapeError

/-- Validator of `RelationshipSchema` (src/src/index.ts lines 52–73):
properties `subject : string, format uri`, `predicate : string` (no format),
`object : string, format uri`; `required: ['subject', 'object', 'predicate']`
(all required fields are checked for presence before any format check, so a
missing required field always reports `ShapeError`). -/
def validateRelationship (u : String → Bool) (v : Json) : Except SchemaError Unit :=
  match v with
  | .obj fields =>
    if (List.lookup "subject" fields).isNone || (List.lookup "object" fields).isNone
        || (List.lookup "predicate" fields).isNone then
      .error .ShapeError
    else do
      let _ ← checkUriStr u fields "subject"
      let _ ← checkStr fields "predicate"
      checkUriStr u fields "object"
  | _ => .error .ShapeError

/-- Validator of the inline `items` schema of `SerializedEntitySchema`'s
`relationships` array (src/src/index.ts lines 99–112): `type: 'object'`,
properties `predicate : string` (no format) and `object : string, format uri`;
the literal declares NO `required` list, so both properties are optional. -/
def validateRelItem (u : String → Bool) (v : Json) : Except SchemaError Unit :=
  match v with
  | .obj fields => do
    let _ ← checkOptStr fields "predicate"
    checkOptUriStr u fields "object"
  | _ => .error .ShapeError

/-- Validator of `SerializedEntitySchema` (src/src/index.ts lines 81–116):
properties `id : string, format uri`, `components : array of ComponentSchema`,
`relationships : array of the inline two-property item schema`;
`required: ['id', 'components', 'relationships']`. -/
def validateSerializedEntity (u : String → Bool) (v : Json) : Except SchemaError Unit :=
  match v with
  | .obj fields =>
    if (List.lookup "id" fields).isNone || (List.lookup "components" fields).isNone
        || (List.lookup "relationships" fields).isNone then
      .error .ShapeError
    else do
      let _ ← checkUriStr u fields "id"
      let _ ← checkArr fields "components" (validateComponent u)
      checkArr fields "relationships" (validateRelItem u)
  | _ => .error .ShapeError

/-- The TypeScript type alias `EntityType` (src/src/index.ts lines 15–17):
a required field `id : string`. -/
structure EntityType where
  id : String
deriving DecidableEq, Repr

/-- The TypeScript type alias `ComponentType` (src/src/index.ts lines 45–50):
required `type : string`, optional `description`, `label : string`, optional
`properties`, by default an open string-keyed map of arbitrary values. -/
structure ComponentType where
  type : String
  description : Option String := none
  label : Option String := none
  properties : Option (List (String × Json)) := none

/-- The TypeScript type alias `RelationshipType` (src/src/index.ts lines
75–79): required `subject`, `predicate`, `object`, all strings. -/
structure RelationshipType where
  subject : String
  predicate : String
  object : String
deriving DecidableEq, Repr

/-- The element type of `SerializedEntityType.relationships`
(src/src/index.ts line 121): `{ predicate: string; object: string }` — by
construction it has no `subject` field. -/
structure EmbeddedRelationship where
  predicate : String
  object : String
deriving DecidableEq, Repr

/-- The TypeScript type alias `SerializedEntityType` (src/src/index.ts lines
118–122). -/
structure SerializedEntityType where
  id : String
  components : List ComponentType
  relationships : List EmbeddedRelationship

/-- Modelled from the spec: the `ConsistencyError` of §7 ("cross-field
invariant violated during projection"). -/
inductive ProjectionError where
  | ConsistencyError : ProjectionError
deriving DecidableEq, Repr

/-- Modelled from the spec: projection (serialize), §4.4 — "given an entity id,
a sequence of Components, and a sequence of full Relationships, produces a
Serialized Entity by keeping components unchanged and, for each Relationship,
asserting `relationship.subject == id` (fails with a `ConsistencyError` if any
relationship's subject does not match) and emitting `{predicate, object}`";
it fails entirely with no output when the precondition does not hold (§7). -/
def project (E : String) (C : List ComponentType) (R : List RelationshipType) :
    Except ProjectionError SerializedEntityType :=
  if R.all (fun r => r.subject == E) then
    .ok { id := E, components := C,
          relationships := R.map fun r => { predicate := r.predicate, object := r.object } }
  else
    .error .ConsistencyError

/-- Modelled from the spec: reprojection (deserialize), §4.4 — "given a
Serialized Entity, produces the Entity `{id}`, the Component sequence
unchanged, and a Relationship sequence where each element is `{subject: id,
predicate, object}`". -/
def reproject (se : SerializedEntityType) :
    String × List ComponentType × List RelationshipType :=
  (se.id, se.components,
    se.relationships.map fun p =>
      { subject := se.id, predicate := p.predicate, object := p.object })

/-- Modelled from the spec: the wire form of an embedded relationship pair
(§6: `{ "predicate": "<uri-or-string>", "object": "<uri>" }`). -/
def EmbeddedRelationship.toJson (p : EmbeddedRelationship) : Json :=
  Json.obj [("predicate", Json.str p.predicate), ("object", Json.str p.object)]

/-! ### Json values structurally admitted by the TypeScript type aliases

TypeScript object types are structural and open, so a value of the alias may
carry extra fields; a declared non-optional field must be present with the
declared primitive type, an optional one must have it when present. -/

/-- The key is present and maps to a string (a required `k : string` member). -/
def reqStrB (fields : List (String × Json)) (k : String) : Bool :=
  match List.lookup k fields with
  | some (Json.str _) => true
  | _ => false

/-- Absent, or present as a string (an optional `k?: string` member). -/
def optStrB (fields : List (String × Json)) (k : String) : Bool :=
  match List.lookup k fields with
  | none => true
  | some (Json.str _) => true
  | _ => false

/-- Absent, or present as an object (an optional `k?: Record` member). -/
def optObjB (fields : List (String × Json)) (k : String) : Bool :=
  match List.lookup k fields with
  | none => true
  | some (Json.obj _) => true
  | _ => false

/-- Values of the alias `EntityType` (src/src/index.ts lines 15–17): a
required `id : string`. -/
def tsEntityType (v : Json) : Bool :=
  match v with
  | Json.obj fields => reqStrB fields "id"
  | _ => false

/-- Values of the alias `ComponentType` (src/src/index.ts lines 45–50):
required `type : string`, optional `description`, `label : string`, optional
`properties` as an open string-keyed map. -/
def tsComponentType (v : Json) : Bool :=
  match v with
  | Json.obj fields =>
    reqStrB fields "type" && optStrB fields "description" && optStrB fields "label"
      && optObjB fields "properties"
  | _ => false

/-- Values of the alias `RelationshipType` (src/src/index.ts lines 75–79):
required `subject`, `predicate`, `object`, all strings. -/
def tsRelationshipType (v : Json) : Bool :=
  match v with
  | Json.obj fields =>
    reqStrB fields "subject" && reqStrB fields "predicate" && reqStrB fields "object"
  | _ => false

/-- Values of the embedded relationship entry type `{ predicate: string;
object: string }` of `SerializedEntityType` (src/src/index.ts line 121): both
fields required. -/
def tsEmbeddedRelationship (v : Json) : Bool :=
  match v with
  | Json.obj fields => reqStrB fields "predicate" && reqStrB fields "object"
  | _ => false

/-- Values of the alias `SerializedEntityType` (src/src/index.ts lines
118–122). -/
def tsSerializedEntityType (v : Json) : Bool :=
  match v with
  | Json.obj fields =>
    reqStrB fields "id"
      && (match List.lookup "components" fields with
          | some (Json.arr xs) => xs.all tsComponentType
          | _ => false)
      && (match List.lookup "relationships" fields with
          | some (Json.arr ys) => ys.all tsEmbeddedRelationship
          | _ => false)
  | _ => false

/-! ### Concrete sample values from the repository's documentation -/

/-- The documentation's literal Entity example `{id: 'did:example:alice'}`. -/
def aliceJson : Json := Json.obj [("id", Json.str "did:example:alice")]

/-- A marker component carrying only `type` (the documentation's
"marker/flag-style" component). -/
def markerComponentJson : Json :=
  Json.obj [("type", Json.str "urn:example:component:verified")]

/-- The openness example: a component whose `properties` holds
`{nested: {arbitrary: ["structure", 1, true]}}`. -/
def nestedComponentJson : Json :=
  Json.obj [("type", Json.str "urn:example:component:tags"),
    ("properties", Json.obj [("nested",
      Json.obj [("arbitrary",
        Json.arr [Json.str "structure", Json.num 1, Json.bool true])])])]

/-- A relationship value whose `predicate` is the empty string. -/
def relEmptyPredJson : Json :=
  Json.obj [("subject", Json.str "did:example:alice"), ("predicate", Json.str ""),
    ("object", Json.str "did:example:bob")]

/-- A serialized-entity value whose `relationships` array holds the empty
object as its only entry. -/
def emptyRelItemEnvelope : Json :=
  Json.obj [("id", Json.str "did:example:alice"), ("components", Json.arr []),
    ("relationships", Json.arr [Json.obj []])]

/-- A serialized-entity value accepted by the schema but outside the
TypeScript alias (its relationships entry lacks both fields). -/
def mismatchEnvelope : Json :=
  Json.obj [("id", Json.str "x"), ("components", Json.arr []),
    ("relationships", Json.arr [Json.obj []])]

/-- A serialized-entity value inside the TypeScript alias: one marker
component and one complete embedded relationship entry. -/
def tsGoodEnvelope : Json :=
  Json.obj [("id", Json.str "did:example:alice"),
    ("components", Json.arr [markerComponentJson]),
    ("relationships", Json.arr [Json.obj [("predicate", Json.str "https://schema.org/knows"),
      ("object", Json.str "did:example:bob")]])]

/-- A typed sample component (the documentation's tags component). -/
def compA : ComponentType :=
  { type := "urn:example:component:tags",
    properties := some [("tags", Json.arr [Json.str "friend", Json.str "colleague"])] }

/-- The documentation's `knows` relationship, subject alice. -/
def relAB : RelationshipType :=
  { subject := "did:example:alice", predicate := "https://schema.org/knows",
    object := "did:example:bob" }

/-- A relationship whose subject is bob, not alice. -/
def relBA : RelationshipType :=
  { subject := "did:example:bob", predicate := "https://schema.org/knows",
    object := "did:example:alice" }

/-! ### Characterizations of the field checks -/

/-- The key maps to a string when it is present at all. -/
def StrWhenPresent (fields : List (String × Json)) (k : String) : Prop :=
  ∀ j, List.lookup k fields = some j → ∃ s, j = Json.str s

/-- The key maps to an object when it is present at all. -/
def ObjWhenPresent (fields : List (String × Json)) (k : String) : Prop :=
  ∀ j, List.lookup k fields = some j → ∃ g, j = Json.obj g

/-- The key maps to a string accepted by the URI checker when present. -/
def UriStrWhenPresent (u : String → Bool) (fields : List (String × Json)) (k : String) : Prop :=
  ∀ j, List.lookup k fields = some j → ∃ s, j = Json.str s ∧ u s = true

/-- The key is present and maps to a string accepted by the URI checker. -/
def HasUriStr (u : String → Bool) (fields : List (String × Json)) (k : String) : Prop :=
  ∃ s, List.lookup k fields = some (Json.str s) ∧ u s = true

/-- The key is present and maps to a string. -/
def HasStr (fields : List (String × Json)) (k : String) : Prop :=
  ∃ s, List.lookup k fields = some (Json.str s)

theorem exceptBind_ok {ε : Type} (a : Except ε Unit) (b : Unit → Except ε Unit) :
    (a >>= b) = Except.ok () ↔ a = Except.ok () ∧ b () = Except.ok () := by
  cases a with
  | error e => simp [Bind.bind, Except.bind]
  | ok u => cases u; simp [Bind.bind, Except.bind]

theorem checkUriStr_ok (u : String → Bool) (fields : List (String × Json)) (k : String) :
    checkUriStr u fields k = Except.ok () ↔ HasUriStr u fields k := by
  unfold checkUriStr HasUriStr
  cases h : List.lookup k fields with
  | none => simp
  | some j => cases j <;> simp

theorem checkStr_ok (fields : List (String × Json)) (k : String) :
    checkStr fields k = Except.ok () ↔ HasStr fields k := by
  unfold checkStr HasStr
  cases h : List.lookup k fields with
  | none => simp
  | some j => cases j <;> simp

theorem checkOptStr_ok (fields : List (String × Json)) (k : String) :
    checkOptStr fields k = Except.ok () ↔ StrWhenPresent fields k := by
  unfold checkOptStr StrWhenPresent
  cases h : List.lookup k fields with
  | none => simp
  | some j => cases j <;> simp

theorem checkOptUriStr_ok (u : String → Bool) (fields : List (String × Json)) (k : String) :
    checkOptUriStr u fields k = Except.ok () ↔ UriStrWhenPresent u fields k := by
  unfold checkOptUriStr UriStrWhenPresent
  cases h : List.lookup k fields with
  | none => simp
  | some j => cases j <;> simp

theorem checkOptObj_ok (fields : List (String × Json)) (k : String) :
    checkOptObj fields k = Except.ok () ↔ ObjWhenPresent fields k := by
  unfold checkOptObj ObjWhenPresent
  cases h : List.lookup k fields with
  | none => simp
  | some j => cases j <;> simp

theorem validateAll_ok (f : Json → Except SchemaError Unit) (xs : List Json) :
    validateAll f xs = Except.ok () ↔ ∀ x ∈ xs, f x = Except.ok () := by
  induction xs with
  | nil => simp [validateAll]
  | cons x xs ih => simp [validateAll, exceptBind_ok, ih]

theorem checkArr_ok (fields : List (String × Json)) (k : String)
    (f : Json → Except SchemaError Unit) :
    checkArr fields k f = Except.ok () ↔
      ∃ xs, List.lookup k fields = some (Json.arr xs) ∧ ∀ x ∈ xs, f x = Except.ok () := by
  unfold checkArr
  cases h : List.lookup k fields with
  | none => simp
  | some j => cases j <;> simp [validateAll_ok]

/-! ### Characterizations of the four schema validators -/

theorem validateEntity_ok (u : String → Bool) (v : Json) :
    validateEntity u v = Except.ok () ↔
      ∃ fields, v = Json.obj fields ∧ HasUriStr u fields "id" := by
  cases v <;> simp [validateEntity, checkUriStr_ok]

theorem validateComponent_ok (u : String → Bool) (v : Json) :
    validateComponent u v = Except.ok () ↔
      ∃ fields, v = Json.obj fields ∧ HasUriStr u fields "type"
        ∧ StrWhenPresent fields "description" ∧ StrWhenPresent fields "label"
        ∧ ObjWhenPresent fields "properties" := by
  cases v <;>
    simp [validateComponent, exceptBind_ok, checkUriStr_ok, checkOptStr_ok, checkOptObj_ok,
      and_assoc]

theorem validateRelationship_ok (u : String → Bool) (v : Json) :
    validateRelationship u v = Except.ok () ↔
      ∃ fields, v = Json.obj fields ∧ HasUriStr u fields "subject"
        ∧ HasStr fields "predicate" ∧ HasUriStr u fields "object" := by
  cases v with
  | obj fields =>
    simp only [validateRelationship]
    split
    · constructor
      · intro h; exact absurd h (by simp)
      · rintro ⟨g, hg, hs, hp, ho⟩
        obtain ⟨rfl⟩ : fields = g := by injection hg
        obtain ⟨s, hs, -⟩ := hs
        obtain ⟨p, hp⟩ := hp
        obtain ⟨o, ho, -⟩ := ho
        simp_all
    · simp [exceptBind_ok, checkUriStr_ok, checkStr_ok, and_assoc]
  | null => simp [validateRelationship]
  | bool b => simp [validateRelationship]
  | num n => simp [validateRelationship]
  | str s => simp [validateRelationship]
  | arr xs => simp [validateRelationship]

theorem validateRelItem_ok (u : String → Bool) (v : Json) :
    validateRelItem u v = Except.ok () ↔
      ∃ fields, v = Json.obj fields ∧ StrWhenPresent fields "predicate"
        ∧ UriStrWhenPresent u fields "object" := by
  cases v <;> simp [validateRelItem, exceptBind_ok, checkOptStr_ok, checkOptUriStr_ok]

theorem validateSerializedEntity_ok (u : String → Bool) (v : Json) :
    validateSerializedEntity u v = Except.ok () ↔
      ∃ fields, v = Json.obj fields ∧ HasUriStr u fields "id"
        ∧ (∃ xs, List.lookup "components" fields = some (Json.arr xs)
            ∧ ∀ x ∈ xs, validateComponent u x = Except.ok ())
        ∧ (∃ ys, List.lookup "relationships" fields = some (Json.arr ys)
            ∧ ∀ y ∈ ys, validateRelItem u y = Except.ok ()) := by
  cases v with
  | obj fields =>
    simp only [validateSerializedEntity]
    split
    · constructor
      · intro h; exact absurd h (by simp)
      · rintro ⟨g, hg, hid, hc, hr⟩
        obtain ⟨rfl⟩ : fields = g := by injection hg
        obtain ⟨s, hs, -⟩ := hid
        obtain ⟨xs, hxs, -⟩ := hc
        obtain ⟨ys, hys, -⟩ := hr
        simp_all
    · simp [exceptBind_ok, checkUriStr_ok, checkArr_ok, and_assoc]
  | null => simp [validateSerializedEntity]
  | bool b => simp [validateSerializedEntity]
  | num n => simp [validateSerializedEntity]
  | str s => simp [validateSerializedEntity]
  | arr xs => simp [validateSerializedEntity]

/-! ### Error-side lemmas -/

theorem validateEntity_missing (u : String → Bool) (fields : List (String × Json))
    (h : List.lookup "id" fields = none) :
    validateEntity u (Json.obj fields) = Except.error SchemaError.ShapeError := by
  simp [validateEntity, checkUriStr, h]

theorem validateEntity_format (u : String → Bool) (fields : List (String × Json)) (s : String)
    (h : List.lookup "id" fields = some (Json.str s)) (hu : u s = false) :
    validateEntity u (Json.obj fields) = Except.error SchemaError.FormatError := by
  simp [validateEntity, checkUriStr, h, hu]

theorem validateComponent_format (u : String → Bool) (fields : List (String × Json)) (s : String)
    (h : List.lookup "type" fields = some (Json.str s)) (hu : u s = false) :
    validateComponent u (Json.obj fields) = Except.error SchemaError.FormatError := by
  simp [validateComponent, checkUriStr, h, hu, Bind.bind, Except.bind]

theorem validateRelationship_missing (u : String → Bool) (fields : List (String × Json))
    (h : List.lookup "subject" fields = none ∨ List.lookup "object" fields = none
      ∨ List.lookup "predicate" fields = none) :
    validateRelationship u (Json.obj fields) = Except.error SchemaError.ShapeError := by
  rcases h with h | h | h <;> simp [validateRelationship, h]

theorem validateRelationship_subject_format (u : String → Bool)
    (fields : List (String × Json)) (s : String) (jo jp : Json)
    (hs : List.lookup "subject" fields = some (Json.str s)) (hu : u s = false)
    (ho : List.lookup "object" fields = some jo)
    (hp : List.lookup "predicate" fields = some jp) :
    validateRelationship u (Json.obj fields) = Except.error SchemaError.FormatError := by
  simp [validateRelationship, hs, ho, hp, checkUriStr, hu, Bind.bind, Except.bind]

theorem validateRelationship_object_format (u : String → Bool)
    (fields : List (String × Json)) (s p ob : String)
    (hs : List.lookup "subject" fields = some (Json.str s)) (hus : u s = true)
    (hp : List.lookup "predicate" fields = some (Json.str p))
    (ho : List.lookup "object" fields = some (Json.str ob)) (huo : u ob = false) :
    validateRelationship u (Json.obj fields) = Except.error SchemaError.FormatError := by
  simp [validateRelationship, hs, ho, hp, checkUriStr, checkStr, hus, huo,
    Bind.bind, Except.bind]

/-! ### Projection helpers -/

theorem project_ok (E : String) (C : List ComponentType) (R : List RelationshipType)
    (h : ∀ r ∈ R, r.subject = E) :
    project E C R = Except.ok
      { id := E, components := C,
        relationships := R.map fun r => { predicate := r.predicate, object := r.object } } := by
  have hall : R.all (fun r => r.subject == E) = true := by
    rw [List.all_eq_true]
    intro r hr
    simp [h r hr]
  simp [project, hall]

theorem reproject_project_map (E : String) (R : List RelationshipType)
    (h : ∀ r ∈ R, r.subject = E) :
    (R.map fun r =>
        ({ predicate := r.predicate, object := r.object } : EmbeddedRelationship)).map
      (fun p =>
        ({ subject := E, predicate := p.predicate, object := p.object } : RelationshipType))
      = R := by
  induction R with
  | nil => rfl
  | cons r rs ih =>
    have hr : r.subject = E := h r (by simp)
    have ht : ∀ x ∈ rs, x.subject = E := fun x hx => h x (by simp [hx])
    cases r with
    | mk sub pred ob =>
      simp only [List.map_cons, ih ht]
      simp_all

/-! ### Extra top-level fields do not change validation -/

theorem lookup_append_fresh {k' k : String} (hne : k' ≠ k) (x : Json) :
    ∀ fields : List (String × Json),
      List.lookup k' (fields ++ [(k, x)]) = List.lookup k' fields
  | [] => by simp [List.lookup, beq_eq_false_iff_ne.mpr hne]
  | (a, b) :: rest => by
    simp only [List.cons_append, List.lookup]
    cases h : (k' == a) <;> simp [lookup_append_fresh hne x rest]

theorem checkUriStr_append (u : String → Bool) {k' k : String} (hne : k' ≠ k) (x : Json)
    (fields : List (String × Json)) :
    checkUriStr u (fields ++ [(k, x)]) k' = checkUriStr u fields k' := by
  unfold checkUriStr
  rw [lookup_append_fresh hne x fields]

theorem checkStr_append {k' k : String} (hne : k' ≠ k) (x : Json)
    (fields : List (String × Json)) :
    checkStr (fields ++ [(k, x)]) k' = checkStr fields k' := by
  unfold checkStr
  rw [lookup_append_fresh hne x fields]

theorem checkOptStr_append {k' k : String} (hne : k' ≠ k) (x : Json)
    (fields : List (String × Json)) :
    checkOptStr (fields ++ [(k, x)]) k' = checkOptStr fields k' := by
  unfold checkOptStr
  rw [lookup_append_fresh hne x fields]

theorem checkOptObj_append {k' k : String} (hne : k' ≠ k) (x : Json)
    (fields : List (String × Json)) :
    checkOptObj (fields ++ [(k, x)]) k' = checkOptObj fields k' := by
  unfold checkOptObj
  rw [lookup_append_fresh hne x fields]

theorem checkArr_append {k' k : String} (hne : k' ≠ k) (x : Json)
    (fields : List (String × Json)) (f : Json → Except SchemaError Unit) :
    checkArr (fields ++ [(k, x)]) k' f = checkArr fields k' f := by
  unfold checkArr
  rw [lookup_append_fresh hne x fields]

/-! ### Bridging the TypeScript aliases and the schema validators

The aliases carry no URI-format information, so they are compared with the
schemas at shape level: the validators run with the URI checker that accepts
every string. -/

theorem reqStrB_eq (fields : List (String × Json)) (k : String) :
    reqStrB fields k = true ↔ HasStr fields k := by
  unfold reqStrB HasStr
  cases h : List.lookup k fields with
  | none => simp
  | some j => cases j <;> simp

theorem optStrB_eq (fields : List (String × Json)) (k : String) :
    optStrB fields k = true ↔ StrWhenPresent fields k := by
  unfold optStrB StrWhenPresent
  cases h : List.lookup k fields with
  | none => simp
  | some j => cases j <;> simp

theorem optObjB_eq (fields : List (String × Json)) (k : String) :
    optObjB fields k = true ↔ ObjWhenPresent fields k := by
  unfold optObjB ObjWhenPresent
  cases h : List.lookup k fields with
  | none => simp
  | some j => cases j <;> simp

theorem hasUriStr_true (fields : List (String × Json)) (k : String) :
    HasUriStr (fun _ => true) fields k ↔ HasStr fields k := by
  simp [HasUriStr, HasStr]

theorem uriStrWhenPresent_true (fields : List (String × Json)) (k : String) :
    UriStrWhenPresent (fun _ => true) fields k ↔ StrWhenPresent fields k := by
  simp [UriStrWhenPresent, StrWhenPresent]

theorem hasStr_strWhenPresent {fields : List (String × Json)} {k : String}
    (h : HasStr fields k) : StrWhenPresent fields k := by
  obtain ⟨s, hs⟩ := h
  intro j hj
  rw [hs] at hj
  exact ⟨s, by injection hj with hj; exact hj.symm⟩

theorem tsEntity_iff (v : Json) :
    tsEntityType v = true ↔ validateEntity (fun _ => true) v = Except.ok () := by
  cases v <;> simp [tsEntityType, validateEntity_ok, reqStrB_eq, hasUriStr_true]

theorem tsComponent_iff (v : Json) :
    tsComponentType v = true ↔ validateComponent (fun _ => true) v = Except.ok () := by
  cases v <;>
    simp [tsComponentType, validateComponent_ok, reqStrB_eq, optStrB_eq, optObjB_eq,
      hasUriStr_true, and_assoc]

theorem tsRelationship_iff (v : Json) :
    tsRelationshipType v = true ↔ validateRelationship (fun _ => true) v = Except.ok () := by
  cases v <;>
    simp [tsRelationshipType, validateRelationship_ok, reqStrB_eq, hasUriStr_true, and_assoc]

theorem tsEmbedded_sub (y : Json) (h : tsEmbeddedRelationship y = true) :
    validateRelItem (fun _ => true) y = Except.ok () := by
  cases y with
  | obj g =>
    simp only [tsEmbeddedRelationship, Bool.and_eq_true, reqStrB_eq] at h
    rw [validateRelItem_ok]
    exact ⟨g, rfl, hasStr_strWhenPresent h.1,
      (uriStrWhenPresent_true g "object").mpr (hasStr_strWhenPresent h.2)⟩
  | null => simp [tsEmbeddedRelationship] at h
  | bool b => simp [tsEmbeddedRelationship] at h
  | num n => simp [tsEmbeddedRelationship] at h
  | str s => simp [tsEmbeddedRelationship] at h
  | arr xs => simp [tsEmbeddedRelationship] at h

theorem tsSerialized_sub (v : Json) (h : tsSerializedEntityType v = true) :
    validateSerializedEntity (fun _ => true) v = Except.ok () := by
  cases v with
  | obj fields =>
    simp only [tsSerializedEntityType, Bool.and_eq_true] at h
    obtain ⟨⟨hid, hcomp⟩, hrel⟩ := h
    rw [validateSerializedEntity_ok]
    refine ⟨fields, rfl, (hasUriStr_true fields "id").mpr ((reqStrB_eq _ _).mp hid), ?_, ?_⟩
    · cases hc : List.lookup "components" fields with
      | none => rw [hc] at hcomp; simp at hcomp
      | some j =>
        rw [hc] at hcomp
        cases j with
        | arr xs =>
          exact ⟨xs, rfl, fun x hx =>
            (tsComponent_iff x).mp (List.all_eq_true.mp hcomp x hx)⟩
        | null => simp at hcomp
        | bool b => simp at hcomp
        | num n => simp at hcomp
        | str s => simp at hcomp
        | obj g => simp at hcomp
    · cases hr : List.lookup "relationships" fields with
      | none => rw [hr] at hrel; simp at hrel
      | some j =>
        rw [hr] at hrel
        cases j with
        | arr ys =>
          exact ⟨ys, rfl, fun y hy =>
            tsEmbedded_sub y (List.all_eq_true.mp hrel y hy)⟩
        | null => simp at hrel
        | bool b => simp at hrel
        | num n => simp at hrel
        | str s => simp at hrel
        | obj g => simp at hrel
  | null => simp [tsSerializedEntityType] at h
  | bool b => simp [tsSerializedEntityType] at h
  | num n => simp [tsSerializedEntityType] at h
  | str s => simp [tsSerializedEntityType] at h
  | arr xs => simp [tsSerializedEntityType] at h

/-! ### The claims -/

/-- C1: round-trip law — for every entity id `E`, component sequence `C`, and
relationship sequence `R` in which each element's subject equals `E`,
reprojection of the projection of `(E, C, R)` returns exactly `(E, C, R)`:
the component and relationship lists come back as supplied, in the same
order, with no reordering and no deduplication (list equality preserves
order and multiplicity, so this holds even when two elements are equal). -/
theorem C1_roundtrip (E : String) (C : List ComponentType) (R : List RelationshipType)
    (h : ∀ r ∈ R, r.subject = E) :
    ∃ se, project E C R = Except.ok se ∧ reproject se = (E, C, R) := by
  refine ⟨_, project_ok E C R h, ?_⟩
  simp [reproject, reproject_project_map E R h]

/-- C1 witness: the round trip at a concrete instance whose component list and
relationship list each contain the same element twice. -/
theorem C1_roundtrip_witness :
    (∀ r ∈ [relAB, relAB], r.subject = "did:example:alice")
    ∧ ∃ se, project "did:example:alice" [compA, compA] [relAB, relAB] = Except.ok se
        ∧ reproject se = ("did:example:alice", [compA, compA], [relAB, relAB]) :=
  ⟨by decide, C1_roundtrip "did:example:alice" [compA, compA] [relAB, relAB] (by decide)⟩

/-- C2: projection succeeds exactly when every relationship's subject equals
`E`; if some relationship's subject differs from `E`, projection fails with
`ConsistencyError` and produces no output (no partially-built serialized
entity — the result is the error, never an `ok`). -/
theorem C2_projection_consistency (E : String) (C : List ComponentType)
    (R : List RelationshipType) :
    ((∃ se, project E C R = Except.ok se) ↔ ∀ r ∈ R, r.subject = E)
    ∧ ((∃ r ∈ R, r.subject ≠ E) →
        project E C R = Except.error ProjectionError.ConsistencyError) := by
  by_cases hall : ∀ r ∈ R, r.subject = E
  · refine ⟨iff_of_true ⟨_, project_ok E C R hall⟩ hall, ?_⟩
    rintro ⟨r, hr, hne⟩
    exact absurd (hall r hr) hne
  · have hb : R.all (fun r => r.subject == E) = false := by
      rw [List.all_eq_false]
      push_neg at hall
      obtain ⟨r, hr, hne⟩ := hall
      exact ⟨r, hr, by simp [hne]⟩
    have hfail : project E C R = Except.error ProjectionError.ConsistencyError := by
      simp [project, hb]
    refine ⟨?_, fun _ => hfail⟩
    rw [hfail]
    constructor
    · rintro ⟨se, hse⟩
      simp at hse
    · intro h
      exact absurd h hall

/-- C2 witness: a concrete mismatched relationship (subject bob under envelope
alice) makes projection fail with `ConsistencyError`. -/
theorem C2_projection_consistency_witness :
    (∃ r ∈ [relBA], r.subject ≠ "did:example:alice")
    ∧ project "did:example:alice" [compA] [relBA]
        = Except.error ProjectionError.ConsistencyError :=
  ⟨⟨relBA, by simp, by decide⟩,
    (C2_projection_consistency "did:example:alice" [compA] [relBA]).2
      ⟨relBA, by simp, by decide⟩⟩

/-- C7: the embedded relationship form is a strict two-field projection: the
wire form of every embedded pair carries only `predicate` and `object` and no
`subject` key, projection emits for each full relationship exactly the pair
`{predicate, object}`, and reprojection reconstructs each full relationship by
substituting the envelope's `id` as the `subject` of each embedded pair. -/
theorem C7_embedded_two_field (E : String) (C : List ComponentType)
    (R : List RelationshipType) (h : ∀ r ∈ R, r.subject = E) :
    (∀ p : EmbeddedRelationship, ∃ g, EmbeddedRelationship.toJson p = Json.obj g
        ∧ List.lookup "subject" g = none)
    ∧ ∃ se, project E C R = Except.ok se
        ∧ se.relationships
            = R.map (fun r => { predicate := r.predicate, object := r.object })
        ∧ (reproject se).2.2
            = se.relationships.map (fun p =>
                ({ subject := se.id, predicate := p.predicate, object := p.object } :
                  RelationshipType)) :=
  ⟨fun _ => ⟨_, rfl, rfl⟩, _, project_ok E C R h, rfl, rfl⟩

/-- C7 witness: the two-field projection at a concrete instance. -/
theorem C7_embedded_two_field_witness :
    (∀ r ∈ [relAB], r.subject = "did:example:alice")
    ∧ ((∀ p : EmbeddedRelationship, ∃ g, EmbeddedRelationship.toJson p = Json.obj g
          ∧ List.lookup "subject" g = none)
       ∧ ∃ se, project "did:example:alice" [compA] [relAB] = Except.ok se
           ∧ se.relationships
               = [relAB].map (fun r => { predicate := r.predicate, object := r.object })
           ∧ (reproject se).2.2
               = se.relationships.map (fun p =>
                   ({ subject := se.id, predicate := p.predicate, object := p.object } :
                     RelationshipType))) :=
  ⟨by decide, C7_embedded_two_field "did:example:alice" [compA] [relAB] (by decide)⟩

/-- C4: Entity validation succeeds exactly when the candidate is an object
containing the single required field `id` as a string satisfying URI syntax;
a missing `id` fails with `ShapeError` and an `id` that is a string but not a
valid URI fails with `FormatError`; the documentation literal
`{id: "did:example:alice"}` passes and the empty object fails with
`ShapeError`. -/
theorem C4_entity_validation :
    (∀ (u : String → Bool) (v : Json), validateEntity u v = Except.ok ()
        ↔ ∃ fields, v = Json.obj fields ∧ HasUriStr u fields "id")
    ∧ (∀ (u : String → Bool) (fields : List (String × Json)),
        List.lookup "id" fields = none →
          validateEntity u (Json.obj fields) = Except.error SchemaError.ShapeError)
    ∧ (∀ (u : String → Bool) (fields : List (String × Json)) (s : String),
        List.lookup "id" fields = some (Json.str s) → u s = false →
          validateEntity u (Json.obj fields) = Except.error SchemaError.FormatError)
    ∧ validateEntity isURI aliceJson = Except.ok ()
    ∧ validateEntity isURI (Json.obj []) = Except.error SchemaError.ShapeError :=
  ⟨validateEntity_ok, validateEntity_missing, validateEntity_format, rfl, rfl⟩

/-- C4 witness: the `ShapeError` branch applied at the empty object, and the
`FormatError` branch applied at `{id: "not a uri"}`. -/
theorem C4_entity_validation_witness :
    List.lookup "id" ([] : List (String × Json)) = none
    ∧ validateEntity isURI (Json.obj []) = Except.error SchemaError.ShapeError
    ∧ isURI "not a uri" = false
    ∧ validateEntity isURI (Json.obj [("id", Json.str "not a uri")])
        = Except.error SchemaError.FormatError :=
  ⟨rfl, C4_entity_validation.2.1 isURI [] rfl, by decide,
    C4_entity_validation.2.2.1 isURI [("id", Json.str "not a uri")] "not a uri" rfl (by decide)⟩

/-- C5: Component validation succeeds exactly when the candidate is an object
with a required `type` field that is a string accepted by the URI checker,
whose `description` and `label`, when present, are strings, and whose
`properties`, when present, is an object (string-keyed map) with no constraint
on the values; validation never alters the value, a component carrying only
`type` validates, the spec's nested-properties example validates, a non-URI
`type` fails with `FormatError`, and components pass through projection and
reprojection verbatim. -/
theorem C5_component_validation :
    (∀ (u : String → Bool) (v : Json), validateComponent u v = Except.ok ()
        ↔ ∃ fields, v = Json.obj fields ∧ HasUriStr u fields "type"
            ∧ StrWhenPresent fields "description" ∧ StrWhenPresent fields "label"
            ∧ ObjWhenPresent fields "properties")
    ∧ (∀ (u : String → Bool) (fields : List (String × Json)) (s : String),
        List.lookup "type" fields = some (Json.str s) → u s = false →
          validateComponent u (Json.obj fields) = Except.error SchemaError.FormatError)
    ∧ validateComponent isURI markerComponentJson = Except.ok ()
    ∧ validateComponent isURI nestedComponentJson = Except.ok ()
    ∧ (∀ (E : String) (C : List ComponentType) (R : List RelationshipType),
        (∀ r ∈ R, r.subject = E) →
          ∃ se, project E C R = Except.ok se ∧ se.components = C
            ∧ (reproject se).2.1 = C) :=
  ⟨validateComponent_ok, validateComponent_format, rfl, rfl,
    fun E C R h => ⟨_, project_ok E C R h, rfl, rfl⟩⟩

/-- C5 witness: the `FormatError` branch applied at `{type:
"not-a-uri-either"}`, and the component pass-through applied at a concrete
projection. -/
theorem C5_component_validation_witness :
    List.lookup "type" [("type", Json.str "not-a-uri-either")]
        = some (Json.str "not-a-uri-either")
    ∧ isURI "not-a-uri-either" = false
    ∧ validateComponent isURI (Json.obj [("type", Json.str "not-a-uri-either")])
        = Except.error SchemaError.FormatError
    ∧ (∀ r ∈ ([] : List RelationshipType), r.subject = "did:example:alice")
    ∧ ∃ se, project "did:example:alice" [compA] [] = Except.ok se
        ∧ se.components = [compA] ∧ (reproject se).2.1 = [compA] :=
  ⟨rfl, by decide,
    C5_component_validation.2.1 isURI [("type", Json.str "not-a-uri-either")]
      "not-a-uri-either" rfl (by decide),
    by simp,
    C5_component_validation.2.2.2.2 "did:example:alice" [compA] [] (by simp)⟩

/-- C6 counterexample: the claim requires `predicate` to be a NON-EMPTY
string, but `RelationshipSchema` only declares `predicate` as `type: 'string'`
with no minimum length, so a relationship whose predicate is the empty string
validates successfully — the claimed equivalence fails at `relEmptyPredJson`. -/
theorem C6_counterexample :
    ¬ (∀ (v : Json), validateRelationship isURI v = Except.ok () ↔
        ∃ fields, v = Json.obj fields ∧ HasUriStr isURI fields "subject"
          ∧ (∃ p, List.lookup "predicate" fields = some (Json.str p) ∧ p ≠ "")
          ∧ HasUriStr isURI fields "object") := by
  intro h
  obtain ⟨fields, hf, -, ⟨p, hp, hne⟩, -⟩ := (h relEmptyPredJson).mp rfl
  have hfe : fields = [("subject", Json.str "did:example:alice"),
      ("predicate", Json.str ""), ("object", Json.str "did:example:bob")] := by
    injection hf.symm
  subst hfe
  rw [show List.lookup "predicate" [("subject", Json.str "did:example:alice"),
      ("predicate", Json.str ""), ("object", Json.str "did:example:bob")]
      = some (Json.str "") from rfl] at hp
  injection hp with hp
  injection hp with hp
  exact hne hp.symm

/-- C6 (amended): Relationship validation succeeds exactly when the candidate
is an object with required `subject` and `object` fields, each a string
accepted by the URI checker, and a required `predicate` field that is a string
(possibly empty; its URI format is not enforced); absence of any required
field fails with `ShapeError`, and a `subject` or `object` that is a string
failing URI syntax fails with `FormatError`. -/
theorem C6_relationship_validation :
    (∀ (u : String → Bool) (v : Json), validateRelationship u v = Except.ok ()
        ↔ ∃ fields, v = Json.obj fields ∧ HasUriStr u fields "subject"
            ∧ HasStr fields "predicate" ∧ HasUriStr u fields "object")
    ∧ (∀ (u : String → Bool) (fields : List (String × Json)),
        (List.lookup "subject" fields = none ∨ List.lookup "object" fields = none
          ∨ List.lookup "predicate" fields = none) →
          validateRelationship u (Json.obj fields) = Except.error SchemaError.ShapeError)
    ∧ (∀ (u : String → Bool) (fields : List (String × Json)) (s : String) (jo jp : Json),
        List.lookup "subject" fields = some (Json.str s) → u s = false →
          List.lookup "object" fields = some jo →
          List.lookup "predicate" fields = some jp →
          validateRelationship u (Json.obj fields) = Except.error SchemaError.FormatError)
    ∧ (∀ (u : String → Bool) (fields : List (String × Json)) (s p ob : String),
        List.lookup "subject" fields = some (Json.str s) → u s = true →
          List.lookup "predicate" fields = some (Json.str p) →
          List.lookup "object" fields = some (Json.str ob) → u ob = false →
          validateRelationship u (Json.obj fields) = Except.error SchemaError.FormatError)
    ∧ validateRelationship isURI
        (Json.obj [("subject", Json.str "a"), ("object", Json.str "b")])
        = Except.error SchemaError.ShapeError :=
  ⟨validateRelationship_ok, validateRelationship_missing,
    validateRelationship_subject_format, validateRelationship_object_format, rfl⟩

/-- C6 witness: the `ShapeError` branch applied at `{subject: "a", object:
"b"}` (missing `predicate`), and the empty-string predicate accepted. -/
theorem C6_relationship_validation_witness :
    (List.lookup "subject" [("subject", Json.str "a"), ("object", Json.str "b")] = none
      ∨ List.lookup "object" [("subject", Json.str "a"), ("object", Json.str "b")] = none
      ∨ List.lookup "predicate" [("subject", Json.str "a"), ("object", Json.str "b")] = none)
    ∧ validateRelationship isURI
        (Json.obj [("subject", Json.str "a"), ("object", Json.str "b")])
        = Except.error SchemaError.ShapeError
    ∧ validateRelationship isURI relEmptyPredJson = Except.ok () :=
  ⟨Or.inr (Or.inr rfl),
    C6_relationship_validation.2.1 isURI
      [("subject", Json.str "a"), ("object", Json.str "b")] (Or.inr (Or.inr rfl)),
    rfl⟩

/-- C3 counterexample: the claim reads the per-item shape as requiring a
`predicate` string and a URI `object` in every relationships entry, but the
inline items schema declares no `required` list, so the envelope whose only
relationships entry is the empty object validates — the claimed equivalence
fails at `emptyRelItemEnvelope`. -/
theorem C3_counterexample :
    ¬ (∀ (v : Json), validateSerializedEntity isURI v = Except.ok () ↔
        ∃ fields, v = Json.obj fields ∧ HasUriStr isURI fields "id"
          ∧ (∃ xs, List.lookup "components" fields = some (Json.arr xs)
              ∧ ∀ x ∈ xs, validateComponent isURI x = Except.ok ())
          ∧ (∃ ys, List.lookup "relationships" fields = some (Json.arr ys)
              ∧ ∀ y ∈ ys, ∃ g, y = Json.obj g ∧ HasStr g "predicate"
                  ∧ HasUriStr isURI g "object")) := by
  intro h
  obtain ⟨fields, hf, -, -, ys, hys, hall⟩ := (h emptyRelItemEnvelope).mp rfl
  have hfe : fields = [("id", Json.str "did:example:alice"), ("components", Json.arr []),
      ("relationships", Json.arr [Json.obj []])] := by injection hf.symm
  subst hfe
  rw [show List.lookup "relationships" [("id", Json.str "did:example:alice"),
      ("components", Json.arr []), ("relationships", Json.arr [Json.obj []])]
      = some (Json.arr [Json.obj []]) from rfl] at hys
  injection hys with hys
  injection hys with hys
  obtain ⟨g, hg, ⟨p, hp⟩, -⟩ := hall (Json.obj []) (by rw [← hys]; simp)
  injection hg with hg
  subst hg
  simp [List.lookup] at hp

/-- C3 (amended): Serialized Entity validation succeeds exactly when the
candidate is an object whose required `id` is a string accepted by the URI
checker, whose required `components` is an array of values each satisfying the
Component validator, and whose required `relationships` is an array of objects
in which `predicate`, when present, is a string and `object`, when present, is
a string accepted by the URI checker (the item schema marks neither field
required). -/
theorem C3_serialized_entity_validation (u : String → Bool) (v : Json) :
    validateSerializedEntity u v = Except.ok () ↔
      ∃ fields, v = Json.obj fields ∧ HasUriStr u fields "id"
        ∧ (∃ xs, List.lookup "components" fields = some (Json.arr xs)
            ∧ ∀ x ∈ xs, validateComponent u x = Except.ok ())
        ∧ (∃ ys, List.lookup "relationships" fields = some (Json.arr ys)
            ∧ ∀ y ∈ ys, ∃ g, y = Json.obj g ∧ StrWhenPresent g "predicate"
                ∧ UriStrWhenPresent u g "object") := by
  rw [validateSerializedEntity_ok]
  simp only [validateRelItem_ok]

/-- C3 witness: the equivalence applied at a concrete accepted envelope. -/
theorem C3_serialized_entity_validation_witness :
    validateSerializedEntity isURI tsGoodEnvelope = Except.ok ()
    ∧ ∃ fields, tsGoodEnvelope = Json.obj fields ∧ HasUriStr isURI fields "id"
        ∧ (∃ xs, List.lookup "components" fields = some (Json.arr xs)
            ∧ ∀ x ∈ xs, validateComponent isURI x = Except.ok ())
        ∧ (∃ ys, List.lookup "relationships" fields = some (Json.arr ys)
            ∧ ∀ y ∈ ys, ∃ g, y = Json.obj g ∧ StrWhenPresent g "predicate"
                ∧ UriStrWhenPresent isURI g "object") :=
  ⟨rfl, (C3_serialized_entity_validation isURI tsGoodEnvelope).mp rfl⟩

/-- C8 counterexample: the claim asserts that every alias/schema pair agrees
on required versus optional fields, but a serialized entity whose only
relationships entry is the empty object is accepted by the schema (whose item
schema has no `required` list) while lying outside the alias
`SerializedEntityType` (whose entry type requires both `predicate` and
`object`); URI formats are ignored for the comparison since the aliases carry
none. -/
theorem C8_counterexample :
    validateSerializedEntity (fun _ => true) mismatchEnvelope = Except.ok ()
    ∧ tsSerializedEntityType mismatchEnvelope = false :=
  ⟨rfl, rfl⟩

/-- C8 (amended): at shape level (URI formats ignored, since the aliases
cannot express them) the alias and schema agree exactly for Entity, Component
and Relationship; for Serialized Entity every value of the alias is accepted
by the schema, but not conversely: the inline relationships item schema marks
no field required while the alias requires both `predicate` and `object` in
each entry. -/
theorem C8_type_schema_mirroring :
    (∀ v, tsEntityType v = true ↔ validateEntity (fun _ => true) v = Except.ok ())
    ∧ (∀ v, tsComponentType v = true ↔ validateComponent (fun _ => true) v = Except.ok ())
    ∧ (∀ v, tsRelationshipType v = true
        ↔ validateRelationship (fun _ => true) v = Except.ok ())
    ∧ (∀ v, tsSerializedEntityType v = true →
        validateSerializedEntity (fun _ => true) v = Except.ok ())
    ∧ ∃ w, validateSerializedEntity (fun _ => true) w = Except.ok ()
        ∧ tsSerializedEntityType w = false :=
  ⟨tsEntity_iff, tsComponent_iff, tsRelationship_iff, tsSerialized_sub,
    mismatchEnvelope, rfl, rfl⟩

/-- C8 witness: the alias-to-schema inclusion applied at a concrete envelope
of the alias. -/
theorem C8_type_schema_mirroring_witness :
    tsSerializedEntityType tsGoodEnvelope = true
    ∧ validateSerializedEntity (fun _ => true) tsGoodEnvelope = Except.ok () :=
  ⟨rfl, C8_type_schema_mirroring.2.2.2.1 tsGoodEnvelope rfl⟩

/-- C9: none of the four schema literals sets `additionalProperties: false` at
top level, so appending an extra field under a key distinct from the declared
properties leaves each validation result unchanged — in particular a value
carrying extra unknown top-level fields is accepted, never rejected for them. -/
theorem C9_extra_fields_accepted (u : String → Bool) (fields : List (String × Json))
    (k : String) (x : Json) :
    (k ≠ "id" →
      validateEntity u (Json.obj (fields ++ [(k, x)])) = validateEntity u (Json.obj fields))
    ∧ (k ≠ "type" → k ≠ "description" → k ≠ "label" → k ≠ "properties" →
      validateComponent u (Json.obj (fields ++ [(k, x)]))
        = validateComponent u (Json.obj fields))
    ∧ (k ≠ "subject" → k ≠ "predicate" → k ≠ "object" →
      validateRelationship u (Json.obj (fields ++ [(k, x)]))
        = validateRelationship u (Json.obj fields))
    ∧ (k ≠ "id" → k ≠ "components" → k ≠ "relationships" →
      validateSerializedEntity u (Json.obj (fields ++ [(k, x)]))
        = validateSerializedEntity u (Json.obj fields)) := by
  refine ⟨?_, ?_, ?_, ?_⟩
  · intro h1
    simp only [validateEntity]
    rw [checkUriStr_append u (Ne.symm h1) x fields]
  · intro h1 h2 h3 h4
    simp only [validateComponent]
    rw [checkUriStr_append u (Ne.symm h1) x fields, checkOptStr_append (Ne.symm h2) x fields,
      checkOptStr_append (Ne.symm h3) x fields, checkOptObj_append (Ne.symm h4) x fields]
  · intro h1 h2 h3
    simp only [validateRelationship]
    rw [lookup_append_fresh (Ne.symm h1) x fields, lookup_append_fresh (Ne.symm h2) x fields,
      lookup_append_fresh (Ne.symm h3) x fields, checkUriStr_append u (Ne.symm h1) x fields,
      checkStr_append (Ne.symm h2) x fields, checkUriStr_append u (Ne.symm h3) x fields]
  · intro h1 h2 h3
    simp only [validateSerializedEntity]
    rw [lookup_append_fresh (Ne.symm h1) x fields, lookup_append_fresh (Ne.symm h2) x fields,
      lookup_append_fresh (Ne.symm h3) x fields, checkUriStr_append u (Ne.symm h1) x fields,
      checkArr_append (Ne.symm h2) x fields, checkArr_append (Ne.symm h3) x fields]

/-- C9 witness: an Entity value with `id` and an unrelated extra key is
accepted. -/
theorem C9_extra_fields_accepted_witness :
    ("extra" : String) ≠ "id"
    ∧ validateEntity isURI
        (Json.obj ([("id", Json.str "did:example:alice")] ++ [("extra", Json.num 1)]))
        = validateEntity isURI (Json.obj [("id", Json.str "did:example:alice")])
    ∧ validateEntity isURI
        (Json.obj [("id", Json.str "did:example:alice"), ("extra", Json.num 1)])
        = Except.ok () :=
  ⟨by decide,
    (C9_extra_fields_accepted isURI [("id", Json.str "did:example:alice")] "extra"
      (Json.num 1)).1 (by decide),
    rfl⟩

/-- C10: the item schema for entries of a Serialized Entity's `relationships`
array declares no required fields, so an entry omitting `predicate`, `object`,
or both — including the empty object — satisfies the per-item shape, and an
envelope whose relationships array holds the empty object validates. -/
theorem C10_rel_items_no_required (u : String → Bool) (p ob : String) :
    validateRelItem u (Json.obj []) = Except.ok ()
    ∧ validateRelItem u (Json.obj [("predicate", Json.str p)]) = Except.ok ()
    ∧ (u ob = true → validateRelItem u (Json.obj [("object", Json.str ob)]) = Except.ok ())
    ∧ validateSerializedEntity isURI emptyRelItemEnvelope = Except.ok () := by
  refine ⟨rfl, rfl, ?_, rfl⟩
  intro h
  simp [validateRelItem, checkOptStr, checkOptUriStr, List.lookup, h, Bind.bind, Except.bind]

/-- C10 witness: an entry carrying only a URI `object` satisfies the per-item
shape. -/
theorem C10_rel_items_no_required_witness :
    isURI "did:example:bob" = true
    ∧ validateRelItem isURI (Json.obj [("object", Json.str "did:example:bob")])
        = Except.ok () :=
  ⟨by decide,
    (C10_rel_items_no_required isURI "https://schema.org/knows" "did:example:bob").2.2.1
      (by decide)⟩

end SchemaOntology
